import Mathlib

/-!
Verification of the TLShield TLS client/server pair (`tls_server.py`,
`tls_client.py`).

The model is a shallow embedding: byte strings on the wire are `List Char`,
Python string helpers (`str.strip`, `str.lower`, `str.startswith`) are
translated as executable Lean functions, and the per-connection command loop
of `YaxploitTLSServer.handle_client_connection` is a function from the trace
of received chunks to the list of chunks sent plus a session state.
File-system state relevant to certificate loading is a record of which of
the four certificate/key files exist.
-/

namespace TLShield

/-- The whitespace characters stripped by Python `str.strip()`, restricted to
ASCII: space (32), tab (9), line feed (10), carriage return (13), vertical
tab (11), form feed (12). (`strip()` also strips some non-ASCII Unicode
whitespace; this protocol is ASCII text.) -/
def pyIsSpace (c : Char) : Bool :=
  decide (c.toNat = 32 ∨ c.toNat = 9 ∨ c.toNat = 10 ∨ c.toNat = 13 ∨
          c.toNat = 11 ∨ c.toNat = 12)

/-- Python `str.lower()` on one character, restricted to ASCII: maps `A`-`Z`
(code points 65-90) to `a`-`z` and leaves every other character unchanged. -/
def pyLowerChar (c : Char) : Char :=
  if 65 ≤ c.toNat ∧ c.toNat ≤ 90 then Char.ofNat (c.toNat + 32) else c

/-- Python `str.lower()` on a string. -/
def pyLower (s : List Char) : List Char := s.map pyLowerChar

/-- Removal of leading whitespace, the left half of Python `str.strip()`. -/
def stripLeft (s : List Char) : List Char := s.dropWhile pyIsSpace

/-- Removal of trailing whitespace, the right half of Python `str.strip()`. -/
def stripRight (s : List Char) : List Char := (s.reverse.dropWhile pyIsSpace).reverse

/-- Python `str.strip()`: remove leading and trailing whitespace. -/
def pyStrip (s : List Char) : List Char := stripRight (stripLeft s)

/-- Which of the four certificate/key files exist in the working directory
(`server.crt`, `server.key`, `client.crt`, `client.key`). -/
structure FS where
  serverCrt : Bool
  serverKey : Bool
  clientCrt : Bool
  clientKey : Bool
deriving DecidableEq

/-- `ssl` module peer-verification modes used by the two programs. -/
inductive VerifyMode where
  | CERT_NONE : VerifyMode
  | CERT_REQUIRED : VerifyMode
deriving DecidableEq

namespace YaxploitTLSServer

/-- What one iteration of the server's command loop sends back:
`close` sends a farewell and breaks out of the loop (quit),
`reply` sends a response and continues the loop. -/
inductive ServerReply where
  | close (farewell : List Char) : ServerReply
  | reply (response : List Char) : ServerReply
deriving DecidableEq

/-- Farewell sent on `quit` (tls_server.py line 167). -/
def goodbyeMsg : List Char := "Goodbye! Connection closed.\n".toList

/-- Fixed `status` response (tls_server.py line 177). -/
def statusMsg : List Char := "Server status: OK\nConnected clients: Active\n".toList

/-- Fixed `help` response (tls_server.py lines 182-188). -/
def helpMsg : List Char :=
  ("Available commands:\n" ++
   "  echo <message> - Echo back your message\n" ++
   "  status - Check server status\n" ++
   "  help - Show this help message\n" ++
   "  quit - Disconnect from server\n").toList

/-- Unknown-command response (tls_server.py line 193), embedding `message`,
the stripped line. -/
def unknownMsg (message : List Char) : List Char :=
  "Unknown command: ".toList ++ message ++ ". Type 'help' for available commands.\n".toList

/-- Dispatch on the stripped message, tls_server.py lines 166-194, in
source order: `quit` (lowercased equality), `echo ` (lowercased
`startswith`, translated as `take 5 = "echo "`; the response is
`message[5:]` of the *original-case* stripped message plus a line feed),
`status`, `help`, otherwise the unknown-command response embedding the
stripped message. -/
def dispatchMessage (message : List Char) : ServerReply :=
  let low := pyLower message
  if low = "quit".toList then .close goodbyeMsg
  else if low.take 5 = "echo ".toList then .reply (message.drop 5 ++ ['\n'])
  else if low = "status".toList then .reply statusMsg
  else if low = "help".toList then .reply helpMsg
  else .reply (unknownMsg message)

/-- Processing of one received chunk, tls_server.py line 162 then 166-194:
`message = data.decode('utf-8').strip()`, followed by the dispatch. -/
def processMessage (data : List Char) : ServerReply :=
  dispatchMessage (pyStrip data)

/-- The server's reply to one client *line*: the client's `send_message`
(tls_client.py line 145) appends a line feed to the line before sending, and
the server dispatches on the received chunk. -/
def serverResponse (line : List Char) : ServerReply := processMessage (line ++ ['\n'])

/-- Session state of the command loop: `active` while the loop keeps reading,
`closed` once the loop has exited via `break` and the `finally` block
(tls_server.py lines 205-212) has closed the TLS socket. -/
inductive SessionState where
  | active : SessionState
  | closed : SessionState
deriving DecidableEq

/-- One iteration of the command loop (tls_server.py lines 153-201): a
zero-length `recv` result (`if not data`) breaks out with nothing sent;
otherwise the chunk is dispatched, and a `quit` additionally breaks. Returns
the chunks sent this iteration and the resulting session state. -/
def handleRecv (data : List Char) : List (List Char) × SessionState :=
  if data = [] then ([], .closed)
  else
    match processMessage data with
    | .close msg => ([msg], .closed)
    | .reply msg => ([msg], .active)

/-- The command loop run over a finite trace of received chunks: every chunk
is processed in order until an iteration closes the session, after which no
further chunk is read. Returns all chunks sent and the final session state
(`active` when the trace is exhausted with the loop still reading). -/
def sessionRun : List (List Char) → List (List Char) × SessionState
  | [] => ([], .active)
  | d :: rest =>
    match handleRecv d with
    | (out, .closed) => (out, .closed)
    | (out, .active) =>
      let r := sessionRun rest
      (out ++ r.1, r.2)

/-- `generate_self_signed_certificates` (tls_server.py lines 35-76): shells
out to openssl to create all four certificate/key files. The external openssl
invocations are modelled by a flag saying whether they succeed; `os.system`
failures are silent, leaving the file system unchanged. -/
def generate_self_signed_certificates (opensslOk : Bool) (fs : FS) : FS :=
  if opensslOk then
    { serverCrt := true, serverKey := true, clientCrt := true, clientKey := true }
  else fs

/-- The server SSL context as configured by `setup_ssl_context`. -/
structure SSLContext where
  verify_mode : VerifyMode
  certChainLoaded : Bool
  verifyLocationsLoaded : Bool
deriving DecidableEq

/-- Result of `setup_ssl_context`: a configured context (with the file system
as it stands afterwards), or process exit via `sys.exit(1)` from the `except`
branch (tls_server.py lines 119-121). -/
inductive SetupResult where
  | ok (ctx : SSLContext) (fs : FS) : SetupResult
  | exit1 : SetupResult
deriving DecidableEq

/-- `setup_ssl_context` (tls_server.py lines 78-121), run from `__init__`
before any socket exists: sets `verify_mode = CERT_REQUIRED`; if `server.crt`
or `server.key` is missing, first calls
`generate_self_signed_certificates`; then `load_cert_chain('server.crt',
'server.key')` and `load_verify_locations('client.crt')`, each of which
raises on a missing file, caught by the handler that exits the process. -/
def setup_ssl_context (opensslOk : Bool) (fs : FS) : SetupResult :=
  let fs1 := if fs.serverCrt && fs.serverKey then fs
             else generate_self_signed_certificates opensslOk fs
  if fs1.serverCrt && fs1.serverKey then
    if fs1.clientCrt then
      .ok { verify_mode := .CERT_REQUIRED, certChainLoaded := true,
            verifyLocationsLoaded := true } fs1
    else .exit1
  else .exit1

/-- Observable startup outcome of the server process: `failedBeforeNetwork`
when `__init__` (which runs `setup_ssl_context`) exits the process — no
socket has been created at that point; `listening` when `start_server`
(tls_server.py lines 214-262) goes on to bind and listen, its first network
activity. -/
inductive StartupOutcome where
  | failedBeforeNetwork : StartupOutcome
  | listening (ctx : SSLContext) : StartupOutcome
deriving DecidableEq

/-- Server startup: `YaxploitTLSServer.__init__` (certificate setup) followed
by `start_server` reaching bind/listen. -/
def serverStartup (opensslOk : Bool) (fs : FS) : StartupOutcome :=
  match setup_ssl_context opensslOk fs with
  | .exit1 => .failedBeforeNetwork
  | .ok ctx _ => .listening ctx

end YaxploitTLSServer

namespace YaxploitTLSClient

/-- The client SSL context as configured by the client's
`setup_ssl_context`. -/
structure SSLContext where
  check_hostname : Bool
  verify_mode : VerifyMode
  clientCertLoaded : Bool
deriving DecidableEq

/-- The client's `setup_ssl_context` (tls_client.py lines 34-79). Its only
input is which certificate files exist: it takes no verification flag. It
sets `check_hostname = False` and `verify_mode = CERT_NONE` unconditionally
(lines 50 and 54), then loads `client.crt`/`client.key` when both exist. -/
def setup_ssl_context (fs : FS) : SSLContext :=
  { check_hostname := false
    verify_mode := .CERT_NONE
    clientCertLoaded := fs.clientCrt && fs.clientKey }

/-- What the client process does as decided by `main` (tls_client.py lines
235-267): start an interactive session, print usage and return without
constructing a client or attempting a connection, or run a single-shot
session with the given command. -/
inductive ClientAction where
  | interactive : ClientAction
  | usage : ClientAction
  | singleShot (command : List Char) : ClientAction
deriving DecidableEq

/-- `' '.join(sys.argv[1:])` (tls_client.py line 252). -/
def joinArgs (args : List (List Char)) : List Char := List.intercalate [' '] args

/-- `main` (tls_client.py lines 235-267) dispatching on `sys.argv[1:]`:
no arguments → interactive session; first argument `-h`, `--help` or `help`
→ usage text, return before any client is constructed; otherwise a
single-shot session sending the space-joined argument list as one command. -/
def clientMain (args : List (List Char)) : ClientAction :=
  match args with
  | [] => .interactive
  | a :: rest =>
    if a = "-h".toList ∨ a = "--help".toList ∨ a = "help".toList then .usage
    else .singleShot (joinArgs (a :: rest))

end YaxploitTLSClient

/-! ### Helper lemmas about the Python string primitives -/

lemma toNat_ofNat_of_lt (n : Nat) (h : n < 55296) : (Char.ofNat n).toNat = n := by
  unfold Char.ofNat
  rw [dif_pos (Or.inl h)]
  rfl

lemma pyIsSpace_pyLowerChar (c : Char) : pyIsSpace (pyLowerChar c) = pyIsSpace c := by
  unfold pyLowerChar
  split
  · rename_i h
    have ht : (Char.ofNat (c.toNat + 32)).toNat = c.toNat + 32 :=
      toNat_ofNat_of_lt _ (by omega)
    have lhs : pyIsSpace (Char.ofNat (c.toNat + 32)) = false := by
      unfold pyIsSpace
      rw [decide_eq_false_iff_not, ht]
      omega
    have rhs : pyIsSpace c = false := by
      unfold pyIsSpace
      rw [decide_eq_false_iff_not]
      omega
    rw [lhs, rhs]
  · rfl

lemma not_space_of_mem_of_pyLower {v kw : List Char}
    (hkw : ∀ x ∈ kw, pyIsSpace x = false) (h : pyLower v = kw) :
    ∀ a ∈ v, pyIsSpace a = false := by
  intro a ha
  have : pyLowerChar a ∈ kw := h ▸ List.mem_map_of_mem pyLowerChar ha
  have := hkw _ this
  rwa [pyIsSpace_pyLowerChar] at this

lemma pyLower_append (a b : List Char) : pyLower (a ++ b) = pyLower a ++ pyLower b :=
  List.map_append pyLowerChar a b

lemma stripLeft_of_all_not {l : List Char} (h : ∀ a ∈ l, pyIsSpace a = false) :
    stripLeft l = l := by
  cases l with
  | nil => rfl
  | cons a t =>
    unfold stripLeft
    rw [List.dropWhile_cons_of_neg]
    simp [h a (List.mem_cons_self a t)]

lemma stripRight_of_all_not {l : List Char} (h : ∀ a ∈ l, pyIsSpace a = false) :
    stripRight l = l := by
  unfold stripRight
  rw [show l.reverse.dropWhile pyIsSpace = l.reverse from ?_, List.reverse_reverse]
  have h' : ∀ a ∈ l.reverse, pyIsSpace a = false := by
    intro a ha
    exact h a (List.mem_reverse.mp ha)
  cases hrev : l.reverse with
  | nil => rfl
  | cons a t =>
    rw [List.dropWhile_cons_of_neg]
    simp [h' a (hrev ▸ List.mem_cons_self a t)]

lemma stripLeft_append_spaces {ws l : List Char} (h : ∀ a ∈ ws, pyIsSpace a = true) :
    stripLeft (ws ++ l) = stripLeft l :=
  List.dropWhile_append_of_pos h

lemma stripRight_append_spaces {l ws : List Char} (h : ∀ a ∈ ws, pyIsSpace a = true) :
    stripRight (l ++ ws) = stripRight l := by
  unfold stripRight
  rw [List.reverse_append, List.dropWhile_append_of_pos]
  intro a ha
  exact h a (List.mem_reverse.mp ha)

lemma stripLeft_append_of_keep {l₁ l₂ : List Char} (h : stripLeft l₁ ≠ []) :
    stripLeft (l₁ ++ l₂) = stripLeft l₁ ++ l₂ := by
  unfold stripLeft at *
  rw [List.dropWhile_append]
  simp only [List.isEmpty_iff]
  rw [if_neg h]

lemma stripRight_append_of_keep {l₁ l₂ : List Char}
    (h : ∃ a ∈ l₂, pyIsSpace a = false) :
    stripRight (l₁ ++ l₂) = l₁ ++ stripRight l₂ := by
  unfold stripRight
  rw [List.reverse_append, List.dropWhile_append]
  have hne : l₂.reverse.dropWhile pyIsSpace ≠ [] := by
    intro hnil
    obtain ⟨a, ha, hs⟩ := h
    have := (List.dropWhile_eq_nil_iff.mp hnil) a (List.mem_reverse.mpr ha)
    rw [hs] at this
    exact Bool.false_ne_true this
  simp only [List.isEmpty_iff]
  rw [if_neg hne, List.reverse_append, List.reverse_reverse]

lemma pyStrip_pad (ws₁ l ws₂ : List Char)
    (h₁ : ∀ a ∈ ws₁, pyIsSpace a = true) (h₂ : ∀ a ∈ ws₂, pyIsSpace a = true) :
    pyStrip (ws₁ ++ l ++ ws₂) = pyStrip l := by
  unfold pyStrip
  rw [List.append_assoc, stripLeft_append_spaces h₁]
  by_cases hl : stripLeft l = []
  · have hall : ∀ a ∈ l, pyIsSpace a = true := by
      intro a ha
      exact List.dropWhile_eq_nil_iff.mp hl a ha
    have : stripLeft (l ++ ws₂) = [] := by
      unfold stripLeft
      rw [List.dropWhile_eq_nil_iff]
      intro a ha
      rcases List.mem_append.mp ha with h | h
      · exact hall a h
      · exact h₂ a h
    rw [this, hl]
  · rw [stripLeft_append_of_keep hl, stripRight_append_spaces h₂]

lemma pyStrip_line_of_all_not {v : List Char} (h : ∀ a ∈ v, pyIsSpace a = false) :
    pyStrip (v ++ ['\n']) = v := by
  cases v with
  | nil => decide
  | cons a t =>
    unfold pyStrip
    have hsl : stripLeft ((a :: t) ++ ['\n']) = (a :: t) ++ ['\n'] := by
      unfold stripLeft
      rw [List.cons_append, List.dropWhile_cons_of_neg]
      simp [h a (List.mem_cons_self a t)]
    rw [hsl, stripRight_append_spaces (by intro x hx; simp at hx; subst hx; decide),
        stripRight_of_all_not h]

lemma pyStrip_of_all_not {v : List Char} (h : ∀ a ∈ v, pyIsSpace a = false) :
    pyStrip v = v := by
  unfold pyStrip
  rw [stripLeft_of_all_not h, stripRight_of_all_not h]

lemma stripLeft_cons_of_not {a : Char} {l : List Char} (h : pyIsSpace a = false) :
    stripLeft (a :: l) = a :: l := by
  unfold stripLeft
  rw [List.dropWhile_cons_of_neg]
  simp [h]

lemma stripRight_snoc_of_not {c : Char} {l : List Char} (h : pyIsSpace c = false) :
    stripRight (l ++ [c]) = l ++ [c] := by
  unfold stripRight
  rw [List.reverse_append]
  simp only [List.reverse_cons, List.reverse_nil, List.nil_append, List.singleton_append]
  rw [List.dropWhile_cons_of_neg (by simp [h]), List.reverse_cons, List.reverse_reverse]

/-- Stripping a line of the shape `<verb> <arg>\n` where the verb has no
whitespace and the argument has at least one non-whitespace character keeps
the verb and the separating space and right-strips the argument. -/
lemma pyStrip_verb_arg (v arg : List Char)
    (hv : ∀ a ∈ v, pyIsSpace a = false) (hvne : v ≠ [])
    (hex : ∃ a ∈ arg, pyIsSpace a = false) :
    pyStrip ((v ++ ' ' :: arg) ++ ['\n']) = v ++ ' ' :: stripRight arg := by
  have hre : (v ++ ' ' :: arg) ++ ['\n'] = v ++ (' ' :: (arg ++ ['\n'])) := by
    simp [List.append_assoc]
  rw [hre]
  unfold pyStrip
  obtain ⟨a, t, rfl⟩ : ∃ a t, v = a :: t := by
    cases v with
    | nil => exact absurd rfl hvne
    | cons a t => exact ⟨a, t, rfl⟩
  rw [show (a :: t) ++ (' ' :: (arg ++ ['\n'])) = a :: (t ++ (' ' :: (arg ++ ['\n'])))
      from rfl]
  rw [stripLeft_cons_of_not (hv a (List.mem_cons_self a t))]
  rw [show a :: (t ++ (' ' :: (arg ++ ['\n']))) = (a :: t) ++ ([' '] ++ (arg ++ ['\n']))
      from rfl]
  obtain ⟨x, hx, hxs⟩ := hex
  have hex₂ : ∃ y ∈ [' '] ++ (arg ++ ['\n']), pyIsSpace y = false :=
    ⟨x, by simp [hx], hxs⟩
  rw [stripRight_append_of_keep hex₂]
  have hex₃ : ∃ y ∈ arg ++ ['\n'], pyIsSpace y = false := ⟨x, by simp [hx], hxs⟩
  rw [show ([' '] ++ (arg ++ ['\n']) : List Char) = [' '] ++ (arg ++ ['\n']) from rfl,
      stripRight_append_of_keep hex₃,
      stripRight_append_spaces (by intro y hy; simp at hy; subst hy; decide)]
  rfl

namespace YaxploitTLSServer

lemma dispatchMessage_echo_verb (v m : List Char) (hv : pyLower v = "echo".toList) :
    dispatchMessage (v ++ ' ' :: m) = ServerReply.reply (m ++ ['\n']) := by
  have hlen : v.length = 4 := by
    have := congrArg List.length hv
    simp only [pyLower, List.length_map] at this
    rw [this]
    rfl
  have hlow : pyLower (v ++ ' ' :: m) = "echo ".toList ++ pyLower m := by
    rw [pyLower_append, hv]
    rfl
  have hq : pyLower (v ++ ' ' :: m) ≠ "quit".toList := by
    intro h
    have hl := congrArg List.length h
    rw [hlow] at hl
    rw [List.length_append] at hl
    have h1 : ("echo ".toList).length = 5 := by decide
    have h2 : ("quit".toList).length = 4 := by decide
    rw [h1, h2] at hl
    omega
  have he : (pyLower (v ++ ' ' :: m)).take 5 = "echo ".toList := by
    rw [hlow]
    exact List.take_left' (by decide)
  have hd : (v ++ ' ' :: m).drop 5 = m := by
    rw [show v ++ ' ' :: m = (v ++ [' ']) ++ m from by simp]
    exact List.drop_left' (by rw [List.length_append, hlen]; rfl)
  unfold dispatchMessage
  rw [if_neg hq, if_pos he, hd]

lemma dispatchMessage_status {v : List Char} (h : pyLower v = "status".toList) :
    dispatchMessage v = ServerReply.reply statusMsg := by
  unfold dispatchMessage
  rw [h, if_neg (by decide), if_neg (by decide), if_pos rfl]

lemma dispatchMessage_help {v : List Char} (h : pyLower v = "help".toList) :
    dispatchMessage v = ServerReply.reply helpMsg := by
  unfold dispatchMessage
  rw [h, if_neg (by decide), if_neg (by decide), if_neg (by decide), if_pos rfl]

lemma dispatchMessage_quit {v : List Char} (h : pyLower v = "quit".toList) :
    dispatchMessage v = ServerReply.close goodbyeMsg := by
  unfold dispatchMessage
  rw [h, if_pos rfl]

lemma dispatchMessage_unknown {m : List Char}
    (hq : pyLower m ≠ "quit".toList)
    (he : (pyLower m).take 5 ≠ "echo ".toList)
    (hs : pyLower m ≠ "status".toList)
    (hh : pyLower m ≠ "help".toList) :
    dispatchMessage m = ServerReply.reply (unknownMsg m) := by
  unfold dispatchMessage
  rw [if_neg hq, if_neg he, if_neg hs, if_neg hh]

/-- The server's response to a line depends only on the stripped line: the
trailing line feed added by the client is itself stripped. -/
lemma serverResponse_strip (l : List Char) :
    serverResponse l = dispatchMessage (pyStrip l) := by
  unfold serverResponse processMessage
  rw [show l ++ ['\n'] = [] ++ l ++ ['\n'] from rfl,
      pyStrip_pad [] l ['\n'] (by simp) (by intro a ha; simp at ha; subst ha; decide)]

lemma sessionRun_cons_closed {d : List Char} {out : List (List Char)}
    (h : handleRecv d = (out, SessionState.closed)) (rest : List (List Char)) :
    sessionRun (d :: rest) = (out, SessionState.closed) := by
  simp only [sessionRun, h]

lemma sessionRun_cons_active {d : List Char} {out : List (List Char)}
    (h : handleRecv d = (out, SessionState.active)) (rest : List (List Char)) :
    sessionRun (d :: rest) = (out ++ (sessionRun rest).1, (sessionRun rest).2) := by
  simp only [sessionRun, h]

end YaxploitTLSServer

/-! ### Claim theorems -/

open YaxploitTLSServer

/-- C1, counterexample: with all four certificate/key files missing but the
external openssl invocation succeeding, server startup does *not* fail: the
certificates are auto-generated inside `setup_ssl_context` and the server
proceeds to listen, refuting the claim that missing `server.crt`/`server.key`
at startup makes startup fail. -/
theorem C1_counterexample :
    serverStartup true ⟨false, false, false, false⟩ ≠
      StartupOutcome.failedBeforeNetwork := by decide

/-- C1 (amended): if `server.crt` or `server.key` is missing at startup, the
server first tries to auto-generate self-signed certificates; when that
generation fails (openssl unavailable), the process exits during `__init__`,
before any network activity — the failure never occurs only at the first
accepted connection. -/
theorem C1_missing_certs_fail_before_network (opensslOk : Bool) (fs : FS)
    (hmiss : fs.serverCrt = false ∨ fs.serverKey = false) (ho : opensslOk = false) :
    serverStartup opensslOk fs = StartupOutcome.failedBeforeNetwork := by
  subst ho
  unfold serverStartup setup_ssl_context generate_self_signed_certificates
  rcases hmiss with h | h <;> simp [h]

/-- Witness for C1: applying the amended theorem with `server.crt` missing
and certificate generation failing. -/
theorem C1_witness :
    serverStartup false ⟨false, true, true, true⟩ =
      StartupOutcome.failedBeforeNetwork :=
  C1_missing_certs_fail_before_network false ⟨false, true, true, true⟩ (Or.inl rfl) rfl

/-- C2, counterexample: at a fully provisioned file system, with no caller
configuration asking for it, the client context builder has already disabled
hostname checking and peer-certificate verification — refuting the claim
that verification is disabled only when a caller explicitly sets
`verify_peer=false`. -/
theorem C2_counterexample :
    (YaxploitTLSClient.setup_ssl_context ⟨true, true, true, true⟩).check_hostname
      = false ∧
    (YaxploitTLSClient.setup_ssl_context ⟨true, true, true, true⟩).verify_mode
      = VerifyMode.CERT_NONE := by decide

/-- C2 (amended): the client context builder takes no verification flag at
all and unconditionally disables both hostname checking
(`check_hostname = False`) and peer-certificate verification
(`verify_mode = CERT_NONE`), for every configuration of present certificate
files — a silent default, not an explicit caller opt-in. -/
theorem C2_verification_always_disabled (fs : FS) :
    (YaxploitTLSClient.setup_ssl_context fs).check_hostname = false ∧
    (YaxploitTLSClient.setup_ssl_context fs).verify_mode = VerifyMode.CERT_NONE :=
  ⟨rfl, rfl⟩

/-- C3, counterexample: for the argument text `hi ` (trailing space, no line
break), the response to the line `echo hi ` is `hi\n`, not the claimed
`hi \n`: the server strips the whole line, so trailing whitespace of the
argument is lost. -/
theorem C3_counterexample :
    serverResponse "echo hi ".toList = ServerReply.reply "hi\n".toList ∧
    serverResponse "echo hi ".toList ≠ ServerReply.reply "hi \n".toList := by decide

/-- C3 (amended): for every argument text that contains no line break and
whose last character is not whitespace (written `t ++ [c]` with `c`
non-whitespace), the server's response to the line `echo <text>` is the
argument text followed by exactly one line break. -/
theorem C3_echo_roundtrip (t : List Char) (c : Char)
    (hc : pyIsSpace c = false) (_hnl : ∀ a ∈ t ++ [c], a ≠ '\n') :
    serverResponse ("echo".toList ++ ' ' :: (t ++ [c])) =
      ServerReply.reply ((t ++ [c]) ++ ['\n']) := by
  unfold serverResponse processMessage
  rw [pyStrip_verb_arg "echo".toList (t ++ [c]) (by decide) (by decide)
      ⟨c, by simp, hc⟩,
    stripRight_snoc_of_not hc,
    dispatchMessage_echo_verb "echo".toList (t ++ [c]) (by decide)]

/-- Witness for C3: the line `echo hi!` is answered with `hi!\n`. -/
theorem C3_witness :
    serverResponse ("echo".toList ++ ' ' :: ("hi".toList ++ ['!'])) =
      ServerReply.reply (("hi".toList ++ ['!']) ++ ['\n']) :=
  C3_echo_roundtrip "hi".toList '!' (by decide) (by decide)

/-- C4, counterexample: for an echo command with no argument (the verb alone
on the line), the response is the unknown-command message, not the claimed
empty line: after stripping, `echo` does not match `echo ` and falls through
to the default branch. -/
theorem C4_counterexample :
    serverResponse "echo".toList = ServerReply.reply (unknownMsg "echo".toList) ∧
    serverResponse "echo".toList ≠ ServerReply.reply ['\n'] := by decide

/-- C4 (amended): an echo command with no argument — the verb alone on the
line, possibly followed by whitespace only — is dispatched as an unknown
command, and the response is `Unknown command: echo. Type 'help' for
available commands.` with a line break, not an empty line. -/
theorem C4_echo_no_argument (ws : List Char) (h : ∀ a ∈ ws, pyIsSpace a = true) :
    serverResponse ("echo".toList ++ ws) =
      ServerReply.reply (unknownMsg "echo".toList) := by
  rw [serverResponse_strip,
    show "echo".toList ++ ws = [] ++ "echo".toList ++ ws from rfl,
    pyStrip_pad [] "echo".toList ws (by simp) h,
    show pyStrip "echo".toList = "echo".toList from by decide,
    dispatchMessage_unknown (by decide) (by decide) (by decide) (by decide)]

/-- Witness for C4: the line `echo ` (verb plus a single trailing space). -/
theorem C4_witness :
    serverResponse ("echo".toList ++ [' ']) =
      ServerReply.reply (unknownMsg "echo".toList) :=
  C4_echo_no_argument [' '] (by decide)

/-- C5, counterexample: the input line `status ` (trailing space) satisfies
every condition of the claim — it does not case-insensitively start with
`echo ` and is not exactly `status`, `help` or `quit` — yet the server
answers with the status response, not the claimed unknown-command response
embedding the raw line: the server dispatches on the stripped line. -/
theorem C5_counterexample :
    (pyLower "status ".toList).take 5 ≠ "echo ".toList ∧
    pyLower "status ".toList ≠ "status".toList ∧
    pyLower "status ".toList ≠ "help".toList ∧
    pyLower "status ".toList ≠ "quit".toList ∧
    serverResponse "status ".toList = ServerReply.reply statusMsg ∧
    serverResponse "status ".toList ≠
      ServerReply.reply (unknownMsg "status ".toList) := by decide

/-- C5 (amended): for every input line whose *stripped* form does not
case-insensitively start with `echo ` and is not case-insensitively
`status`, `help` or `quit`, the response is exactly
`Unknown command: <stripped line>. Type 'help' for available commands.\n`. -/
theorem C5_unknown_command (l : List Char)
    (hq : pyLower (pyStrip l) ≠ "quit".toList)
    (he : (pyLower (pyStrip l)).take 5 ≠ "echo ".toList)
    (hs : pyLower (pyStrip l) ≠ "status".toList)
    (hh : pyLower (pyStrip l) ≠ "help".toList) :
    serverResponse l = ServerReply.reply (unknownMsg (pyStrip l)) := by
  rw [serverResponse_strip, dispatchMessage_unknown hq he hs hh]

/-- Witness for C5: the line `hello world`. -/
theorem C5_witness :
    serverResponse "hello world".toList =
      ServerReply.reply (unknownMsg (pyStrip "hello world".toList)) :=
  C5_unknown_command "hello world".toList (by decide) (by decide) (by decide)
    (by decide)

/-- C6: after a `quit` request (any chunk whose stripped, lowercased form is
`quit`), the session sends exactly one farewell line, the session is closed,
and none of the later chunks of the trace is read — the peer never receives
a second response after the farewell. -/
theorem C6_quit_single_farewell (line : List Char) (rest : List (List Char))
    (h : pyLower (pyStrip line) = "quit".toList) :
    sessionRun (line :: rest) = ([goodbyeMsg], SessionState.closed) := by
  have hne : line ≠ [] := by
    intro h0
    rw [h0] at h
    exact absurd h (by decide)
  have hp : processMessage line = ServerReply.close goodbyeMsg := by
    unfold processMessage
    exact dispatchMessage_quit h
  have hr : handleRecv line = ([goodbyeMsg], SessionState.closed) := by
    unfold handleRecv
    rw [if_neg hne, hp]
  exact sessionRun_cons_closed hr rest

/-- Witness for C6: a `quit` line followed by a `help` line that is never
read. -/
theorem C6_witness :
    sessionRun ["quit\n".toList, "help\n".toList] =
      ([goodbyeMsg], SessionState.closed) :=
  C6_quit_single_farewell "quit\n".toList ["help\n".toList] (by decide)

/-- C7: a zero-length read closes the session with no response emitted, at
every point of the command loop: whatever exchanges came before (any prefix
after which the session is still active), a zero-length chunk leaves the
output exactly as it was and moves the session to CLOSED. -/
theorem C7_zero_read_closes (pre rest : List (List Char))
    (h : (sessionRun pre).2 = SessionState.active) :
    sessionRun (pre ++ [] :: rest) = ((sessionRun pre).1, SessionState.closed) := by
  induction pre with
  | nil =>
    rw [List.nil_append, sessionRun_cons_closed rfl rest]
    rfl
  | cons d pre ih =>
    rcases hd : handleRecv d with ⟨out, st⟩
    cases st with
    | closed =>
      rw [sessionRun_cons_closed hd pre] at h
      exact SessionState.noConfusion h
    | active =>
      rw [List.cons_append, sessionRun_cons_active hd (pre ++ [] :: rest),
          sessionRun_cons_active hd pre]
      rw [sessionRun_cons_active hd pre] at h
      rw [ih h]

/-- Witness for C7: after an exchange of one `help` line, a zero-length read
closes the session and adds no output. -/
theorem C7_witness :
    sessionRun (["help\n".toList] ++ [] :: []) =
      ((sessionRun ["help\n".toList]).1, SessionState.closed) :=
  C7_zero_read_closes ["help\n".toList] [] (by decide)

/-- C8, counterexample: `ECHO ` and `echo ` are case variants of the echo
verb with the same (empty) argument, yet their responses differ: both fall
through to the unknown-command branch, which embeds the original-case line. -/
theorem C8_counterexample :
    pyLower "ECHO ".toList = pyLower "echo ".toList ∧
    serverResponse "ECHO ".toList ≠ serverResponse "echo ".toList := by decide

/-- C8 (amended): verb dispatch is case-insensitive — any case variant of
the verb produces the identical response as the lowercase form — for
`status`, `help` and `quit` always, and for `echo` whenever the argument
contains at least one non-whitespace character (when the argument is empty
or all whitespace, the line falls through to the unknown-command response,
which embeds the original-case line). -/
theorem C8_case_insensitive :
    (∀ v arg, pyLower v = "echo".toList → (∃ a ∈ arg, pyIsSpace a = false) →
      serverResponse (v ++ ' ' :: arg) = serverResponse ("echo".toList ++ ' ' :: arg)) ∧
    (∀ v, pyLower v = "status".toList →
      serverResponse v = serverResponse "status".toList) ∧
    (∀ v, pyLower v = "help".toList →
      serverResponse v = serverResponse "help".toList) ∧
    (∀ v, pyLower v = "quit".toList →
      serverResponse v = serverResponse "quit".toList) := by
  refine ⟨?_, ?_, ?_, ?_⟩
  · intro v arg hv hex
    have hvall : ∀ a ∈ v, pyIsSpace a = false :=
      not_space_of_mem_of_pyLower (by decide) hv
    have hvne : v ≠ [] := by
      intro h0
      rw [h0] at hv
      exact absurd hv (by decide)
    unfold serverResponse processMessage
    rw [pyStrip_verb_arg v arg hvall hvne hex,
        pyStrip_verb_arg "echo".toList arg (by decide) (by decide) hex,
        dispatchMessage_echo_verb v (stripRight arg) hv,
        dispatchMessage_echo_verb "echo".toList (stripRight arg) (by decide)]
  · intro v hv
    have hvall : ∀ a ∈ v, pyIsSpace a = false :=
      not_space_of_mem_of_pyLower (by decide) hv
    rw [serverResponse_strip v, pyStrip_of_all_not hvall, dispatchMessage_status hv]
    decide
  · intro v hv
    have hvall : ∀ a ∈ v, pyIsSpace a = false :=
      not_space_of_mem_of_pyLower (by decide) hv
    rw [serverResponse_strip v, pyStrip_of_all_not hvall, dispatchMessage_help hv]
    decide
  · intro v hv
    have hvall : ∀ a ∈ v, pyIsSpace a = false :=
      not_space_of_mem_of_pyLower (by decide) hv
    rw [serverResponse_strip v, pyStrip_of_all_not hvall, dispatchMessage_quit hv]
    decide

/-- Witness for C8: `ECHO hi`, `STATUS`, `Help` and `QUIT` each produce the
same response as their lowercase forms. -/
theorem C8_witness :
    serverResponse ("ECHO".toList ++ ' ' :: "hi".toList) =
      serverResponse ("echo".toList ++ ' ' :: "hi".toList) ∧
    serverResponse "STATUS".toList = serverResponse "status".toList ∧
    serverResponse "Help".toList = serverResponse "help".toList ∧
    serverResponse "QUIT".toList = serverResponse "quit".toList :=
  ⟨C8_case_insensitive.1 "ECHO".toList "hi".toList (by decide)
      ⟨'h', by decide, by decide⟩,
   C8_case_insensitive.2.1 "STATUS".toList (by decide),
   C8_case_insensitive.2.2.1 "Help".toList (by decide),
   C8_case_insensitive.2.2.2 "QUIT".toList (by decide)⟩

/-- C9: client CLI dispatch — no arguments starts an interactive session; a
first argument of `help`, `-h` or `--help` prints usage and attempts no
connection; any other argument list runs a single-shot session sending the
space-joined argument string as one command. -/
theorem C9_client_cli :
    YaxploitTLSClient.clientMain [] = YaxploitTLSClient.ClientAction.interactive ∧
    (∀ rest,
      YaxploitTLSClient.clientMain ("help".toList :: rest) =
        YaxploitTLSClient.ClientAction.usage ∧
      YaxploitTLSClient.clientMain ("-h".toList :: rest) =
        YaxploitTLSClient.ClientAction.usage ∧
      YaxploitTLSClient.clientMain ("--help".toList :: rest) =
        YaxploitTLSClient.ClientAction.usage) ∧
    (∀ a rest, a ≠ "-h".toList → a ≠ "--help".toList → a ≠ "help".toList →
      YaxploitTLSClient.clientMain (a :: rest) =
        YaxploitTLSClient.ClientAction.singleShot
          (YaxploitTLSClient.joinArgs (a :: rest))) := by
  refine ⟨rfl, fun rest => ⟨rfl, rfl, rfl⟩, ?_⟩
  intro a rest h1 h2 h3
  simp only [YaxploitTLSClient.clientMain]
  rw [if_neg (fun hor => hor.elim h1 (fun hor2 => hor2.elim h2 h3))]

/-- Witness for C9: the single argument `status` runs a single-shot session
with the joined command `status`. -/
theorem C9_witness :
    YaxploitTLSClient.clientMain ["status".toList] =
      YaxploitTLSClient.ClientAction.singleShot
        (YaxploitTLSClient.joinArgs ["status".toList]) :=
  C9_client_cli.2.2 "status".toList [] (by decide) (by decide) (by decide)

/-- C10: the server strips leading and trailing whitespace from every
received line before dispatch — the response is invariant under added
leading/trailing whitespace — and when the stripped line dispatches to the
unknown-command branch, the response embeds the stripped line, not the raw
line as received. -/
theorem C10_strip_invariance (ws₁ l ws₂ : List Char)
    (h₁ : ∀ a ∈ ws₁, pyIsSpace a = true) (h₂ : ∀ a ∈ ws₂, pyIsSpace a = true) :
    serverResponse (ws₁ ++ l ++ ws₂) = serverResponse l ∧
    (pyLower (pyStrip l) ≠ "quit".toList →
     (pyLower (pyStrip l)).take 5 ≠ "echo ".toList →
     pyLower (pyStrip l) ≠ "status".toList →
     pyLower (pyStrip l) ≠ "help".toList →
     serverResponse (ws₁ ++ l ++ ws₂) =
       ServerReply.reply (unknownMsg (pyStrip l))) := by
  have key : serverResponse (ws₁ ++ l ++ ws₂) = serverResponse l := by
    rw [serverResponse_strip (ws₁ ++ l ++ ws₂), serverResponse_strip l,
        pyStrip_pad ws₁ l ws₂ h₁ h₂]
  refine ⟨key, ?_⟩
  intro hq he hs hh
  rw [key, serverResponse_strip l, dispatchMessage_unknown hq he hs hh]

/-- Witness for C10: padding the unknown line `foo` with spaces does not
change the response, and the response embeds the stripped line `foo`. -/
theorem C10_witness :
    serverResponse ([' '] ++ "foo".toList ++ [' ']) = serverResponse "foo".toList ∧
    serverResponse ([' '] ++ "foo".toList ++ [' ']) =
      ServerReply.reply (unknownMsg (pyStrip "foo".toList)) :=
  ⟨(C10_strip_invariance [' '] "foo".toList [' '] (by decide) (by decide)).1,
   (C10_strip_invariance [' '] "foo".toList [' '] (by decide) (by decide)).2
     (by decide) (by decide) (by decide) (by decide)⟩

end TLShield
